/-
  Verification of the digital-divide dashboard's selection, scale/domain and
  rendering pipeline, shallowly embedded from the TypeScript sources
  (Dashboard.tsx, ChoroplethMap.tsx, GroupBarChart.tsx, ComparisonChart,
  StateBarChart, RadarChart, ParallelCoordinatesPlot.tsx, lib/utils.ts).

  Modelling conventions:
  * JavaScript numbers are modelled as rationals (ℚ); `parseFloat` returning
    NaN is modelled as `Option ℚ` returning `none`.
  * `jsParseFloat`, `jsParseInt` and `jsToLocaleString` model the JavaScript
    runtime builtins `parseFloat`, `parseInt` and `Number.toLocaleString`
    (decimal literals with an optional sign and fraction; locale grouping by
    thousands).  They are external runtime collaborators of the repository,
    not repository code.
  * A CSV row (the dynamic object produced by `d3.csvParse`) is modelled as
    its ordered list of column keys plus a total cell-access function.
  * d3 scale objects built by the repository from a computed domain
    (`scaleQuantize`, the bar chart's `scaleLinear().nice()`) are passed as
    function parameters where a claim does not depend on their internals.
-/
import Mathlib

/- Batteries marks the rational-number operations irreducible; the concrete
witnesses below evaluate them, so re-open them for this file. -/
attribute [local semireducible] Rat.add Rat.sub Rat.mul Rat.inv Rat.ofScientific

set_option maxRecDepth 100000

/-! ### Models of the JavaScript runtime builtins used by the repository -/

/-- Consume a maximal run of decimal digits; returns the accumulated value,
the number of digits consumed, and the rest of the input. -/
def jsTakeDigits : List Char → Nat → Nat → Nat × Nat × List Char
  | [], acc, n => (acc, n, [])
  | c :: rest, acc, n =>
    if c.isDigit then jsTakeDigits rest (acc * 10 + (c.toNat - 48)) (n + 1)
    else (acc, n, c :: rest)

/-- Model of the JavaScript builtin `parseFloat`: skip leading whitespace,
optional sign, then a maximal decimal literal; `NaN` (no digits at all) is
modelled as `none`. -/
def jsParseFloat (s : String) : Option ℚ :=
  let cs := s.toList.dropWhile fun c => c == ' ' || c == '\t' || c == '\n' || c == '\r'
  let signed : Bool × List Char :=
    match cs with
    | '-' :: rest => (true, rest)
    | '+' :: rest => (false, rest)
    | _ => (false, cs)
  let intPart := jsTakeDigits signed.2 0 0
  let fracPart : Nat × Nat :=
    match intPart.2.2 with
    | '.' :: rest2 =>
      let f := jsTakeDigits rest2 0 0
      (f.1, f.2.1)
    | _ => (0, 0)
  if intPart.2.1 == 0 && fracPart.2 == 0 then none
  else
    let mag : ℚ := (intPart.1 : ℚ) + (fracPart.1 : ℚ) / ((10 : ℚ) ^ fracPart.2)
    some (if signed.1 then -mag else mag)

/-- Model of the JavaScript builtin `parseInt` (radix 10): skip leading
whitespace, optional sign, maximal run of digits; `NaN` is `none`. -/
def jsParseInt (s : String) : Option Int :=
  let cs := s.toList.dropWhile fun c => c == ' ' || c == '\t' || c == '\n' || c == '\r'
  let signed : Bool × List Char :=
    match cs with
    | '-' :: rest => (true, rest)
    | '+' :: rest => (false, rest)
    | _ => (false, cs)
  let intPart := jsTakeDigits signed.2 0 0
  if intPart.2.1 == 0 then none
  else some (if signed.1 then -(intPart.1 : Int) else (intPart.1 : Int))

/-- Insert a comma after every three digits, walking the reversed digit
list. -/
def groupRevDigits : List Char → Nat → List Char
  | [], _ => []
  | c :: rest, k =>
    if k == 3 then ',' :: c :: groupRevDigits rest 1
    else c :: groupRevDigits rest (k + 1)

/-- Model of `Number.prototype.toLocaleString` for integers in the en-US
locale: decimal digits grouped by thousands with commas. -/
def jsToLocaleString (n : Int) : String :=
  let digits := (toString n.natAbs).toList
  (if n < 0 then "-" else "") ++ String.mk (groupRevDigits digits.reverse 0).reverse

/-- Model of the JavaScript `x || dflt` idiom on an optional number: the
default is taken when the value is absent (`undefined`) or zero (falsy). -/
def jsOrQ (x : Option ℚ) (dflt : ℚ) : ℚ :=
  match x with
  | none => dflt
  | some v => if v = 0 then dflt else v

/-! ### Data model: CSV rows (`StateData`) -/

/-- One row of the loaded dataset, as produced by `d3.csvParse`: a dynamic
object whose keys are the CSV header columns.  `columns` is the ordered key
list (`Object.keys`), `cell` is property access `row[key]`. -/
structure StateData where
  columns : List String
  cell : String → String

/-- `row.State`: the display name column. -/
def StateData.State (d : StateData) : String := d.cell "State"

/-- `row.state_id`: the two-letter state code column. -/
def StateData.state_id (d : StateData) : String := d.cell "state_id"

/-- `getMetrics` from lib/utils.ts: the keys of the first row minus the
three identifier columns. -/
def getMetrics (data : List StateData) : List String :=
  match data with
  | [] => []
  | firstState :: _ =>
    firstState.columns.filter fun key => !(["Geo_ID", "State", "state_id"].contains key)

/-- `formatValue` from lib/utils.ts: the income metric is displayed as a
dollar amount parsed from the raw string; everything else is shown raw. -/
def formatValue (value : String) (metricName : String) : String :=
  if metricName == "Median Household Income" then
    match jsParseInt value with
    | some n => "$" ++ jsToLocaleString n
    | none => "$NaN"
  else value

/-- `getStateColor` from lib/utils.ts: `colorScale(value) || "#ccc"`; the
quantize scale is passed as a function, the fallback fires on a falsy
(empty) result. -/
def getStateColor (value : ℚ) (colorScale : ℚ → String) : String :=
  if colorScale value == "" then "#ccc" else colorScale value

/-! ### Selection state (Dashboard.tsx) -/

/-- An element of `selectedStates`: `{ id, data }`. -/
structure SelectedState where
  id : String
  data : StateData

/-- The slice of the Dashboard component state that the selection
transitions read and write. -/
structure DashSelState where
  selectedStates : List SelectedState
  selectedRegion : Option String
  multipleSelectionMode : Bool

/-- `handleStateSelect` from Dashboard.tsx.  The source tests
`findIndex((s) => s.id === stateId) >= 0`, which holds exactly when some
selected entry has that id. -/
def handleStateSelect (s : DashSelState) (stateId : String) (stateData : StateData) :
    DashSelState :=
  if s.multipleSelectionMode then
    if s.selectedStates.any (fun e => e.id == stateId) then
      { s with selectedStates := s.selectedStates.filter fun e => e.id != stateId }
    else
      { s with selectedStates := s.selectedStates ++ [{ id := stateId, data := stateData }] }
  else
    { s with selectedStates := [{ id := stateId, data := stateData }] }

/-- `clearSelection` from Dashboard.tsx. -/
def clearSelection (s : DashSelState) : DashSelState :=
  { s with selectedStates := [], selectedRegion := none }

/-! ### Data bootstrap (lib/utils.ts fetch helpers and Dashboard.tsx loadData) -/

/-- Outcome of one network fetch + parse: either a value or a failure that
would reject the promise. -/
inductive FetchOutcome (α : Type) where
  | ok (value : α)
  | failure
deriving DecidableEq

/-- `fetchCSVData` from lib/utils.ts: the helper catches its own failure
(logging it) and resolves with an empty row list, so it never rejects. -/
def fetchCSVData (outcome : FetchOutcome (List StateData)) : List StateData :=
  match outcome with
  | .ok rows => rows
  | .failure => []

/-- `fetchTopoJSONData` from lib/utils.ts: the helper catches its own
failure and resolves with `null`, so it never rejects. -/
def fetchTopoJSONData (T : Type) (outcome : FetchOutcome T) : Option T :=
  match outcome with
  | .ok topo => some topo
  | .failure => none

/-- The Dashboard component state as left by `loadData`. -/
structure DashboardState (T : Type) where
  stateData : List StateData
  topoData : Option T
  metrics : List String
  selectedMetric : String
  selectedMetrics : List String
  isLoading : Bool
  error : Option String

/-- `loadData` from Dashboard.tsx as a function of the two fetch outcomes.
Because both fetch helpers catch their own failures and resolve with a
default, no step of the `try` block throws, so the surrounding
`catch` (which would set `error`) is unreachable: `error` is left `null`. -/
def loadData (T : Type) (csvOutcome : FetchOutcome (List StateData))
    (topoOutcome : FetchOutcome T) : DashboardState T :=
  let csvData := fetchCSVData csvOutcome
  let topo := fetchTopoJSONData T topoOutcome
  let metricsList := getMetrics csvData
  { stateData := csvData
    topoData := topo
    metrics := metricsList
    selectedMetric := if metricsList.length > 0 then metricsList.headD "" else ""
    selectedMetrics := if metricsList.length > 0 then metricsList.take 5 else []
    isLoading := false
    error := none }

/-- Which of the three top-level views Dashboard.tsx returns. -/
inductive DashView where
  | loading
  | errorView
  | main
deriving DecidableEq

/-- The early-return structure of the Dashboard render: loading screen,
then error screen, then the main chart layout. -/
def dashboardView (T : Type) (s : DashboardState T) : DashView :=
  if s.isLoading then DashView.loading
  else if s.error.isSome then DashView.errorView
  else DashView.main

/-! ### Choropleth map (ChoroplethMap.tsx): colour domain and fill -/

/-- `d3.min` over a number list: `undefined` (`none`) on empty input. -/
def d3min (values : List ℚ) : Option ℚ :=
  match values with
  | [] => none
  | v :: rest => some (rest.foldl min v)

/-- `d3.max` over a number list: `undefined` (`none`) on empty input. -/
def d3max (values : List ℚ) : Option ℚ :=
  match values with
  | [] => none
  | v :: rest => some (rest.foldl max v)

/-- The `values` array of the choropleth colour scale:
`data.map((d) => parseFloat(d[selectedMetric])).filter((v) => !isNaN(v))`. -/
def choroMetricValues (data : List StateData) (selectedMetric : String) : List ℚ :=
  (data.map fun d => jsParseFloat (d.cell selectedMetric)).filterMap id

/-- The colour scale domain:
`[d3.min(values) || 0, d3.max(values) || 100]`. -/
def choroDomain (data : List StateData) (selectedMetric : String) : ℚ × ℚ :=
  let values := choroMetricValues data selectedMetric
  (jsOrQ (d3min values) 0, jsOrQ (d3max values) 100)

/-- The choropleth `fill` attribute for a map feature: light gray when the
feature has no data row or its metric value fails numeric parse, otherwise
the quantized colour. -/
def choroplethFill (dataByFips : String → Option StateData) (selectedMetric : String)
    (colorScale : ℚ → String) (featureId : String) : String :=
  match dataByFips featureId with
  | none => "#e5e7eb"
  | some stateData =>
    match jsParseFloat (stateData.cell selectedMetric) with
    | none => "#e5e7eb"
    | some value => getStateColor value colorScale

/-! ### Grouped bar chart (GroupBarChart.tsx): sorting and bar geometry -/

/-- The sort comparator of GroupBarChart.tsx (`sortOrder = true` is
ascending): rows whose metric fails parse sort as a block, otherwise by
numeric difference. -/
def groupBarComparator (metric : String) (sortOrder : Bool) (a b : StateData) : ℚ :=
  match jsParseFloat (a.cell metric), jsParseFloat (b.cell metric) with
  | none, none => 0
  | none, some _ => if sortOrder then -1 else 1
  | some _, none => if sortOrder then 1 else -1
  | some av, some bv => if sortOrder then av - bv else bv - av

/-- `sortedData`: the rows sorted by the comparator (JavaScript `sort` is a
stable comparison sort). -/
def groupBarSorted (statesData : List StateData) (metric : String) (sortOrder : Bool) :
    List StateData :=
  statesData.mergeSort fun a b => decide (groupBarComparator metric sortOrder a b ≤ 0)

/-- One bar rectangle of the grouped bar chart: the bound row datum and the
`y`/`height` attributes. -/
structure GroupBarRect where
  datum : StateData
  y : ℚ
  height : ℚ

/-- The bar rectangles of GroupBarChart.tsx: one per sorted row; a row whose
metric fails parse gets `y = height - margin.bottom` (the baseline,
`margin.bottom = 60`) and zero height; otherwise the `yScale` geometry (the
scale built by `d3.scaleLinear().nice()` is passed as a function). -/
def groupBarRects (statesData : List StateData) (metric : String) (sortOrder : Bool)
    (height : ℚ) (yScale : ℚ → ℚ) : List GroupBarRect :=
  (groupBarSorted statesData metric sortOrder).map fun d =>
    match jsParseFloat (d.cell metric) with
    | none => { datum := d, y := height - 60, height := 0 }
    | some value => { datum := d, y := yScale value, height := height - 60 - yScale value }

/-! ### Comparison chart and per-state bar chart: income scaling -/

/-- One bar datum of ComparisonChart's grouped bars: the plotted `value` is
the parsed metric, divided by 1000 for the income metric; `displayValue` is
the raw cell string. -/
structure CompBarDatum where
  state : String
  metric : String
  value : Option ℚ
  displayValue : String
  isIncome : Bool

/-- The bar datum constructor of ComparisonChart (`bars.selectAll(".bar").data(...)`). -/
def compBarDatum (state : StateData) (metric : String) : CompBarDatum :=
  { state := state.State
    metric := metric
    value :=
      if metric == "Median Household Income" then
        (jsParseFloat (state.cell metric)).map fun v => v / 1000
      else jsParseFloat (state.cell metric)
    displayValue := state.cell metric
    isIncome := metric == "Median Household Income" }

/-- The value text shown in ComparisonChart's tooltip:
`formatValue(d.displayValue, d.metric)`. -/
def compBarTooltipText (d : CompBarDatum) : String := formatValue d.displayValue d.metric

/-- One entry of StateBarChart's `chartMetrics`: parsed value, value scaled
by 1000 for income, and the raw display string (`NaN` coerced to 0). -/
structure ChartMetric where
  name : String
  value : ℚ
  normalizedValue : ℚ
  displayValue : String
  isIncome : Bool

/-- The `chartMetrics` entry of StateBarChart for one metric of one row. -/
def chartMetricOf (stateData : StateData) (m : String) : ChartMetric :=
  let parsed := jsParseFloat (stateData.cell m)
  let normalized :=
    if m == "Median Household Income" then parsed.map (fun v => v / 1000) else parsed
  { name := m
    value := parsed.getD 0
    normalizedValue := normalized.getD 0
    displayValue := stateData.cell m
    isIncome := m == "Median Household Income" }

/-- `normalizedMetrics`' `chartValue`: the scaled value for income, the
plain parsed value otherwise — the number actually placed on the shared
axis. -/
def chartValueOf (c : ChartMetric) : ℚ :=
  if c.isIncome then c.normalizedValue else c.value

/-! ### Parallel coordinates (ParallelCoordinatesPlot.tsx): axis reorder -/

/-- Model of JavaScript `Array.prototype.indexOf`: index of the first
occurrence, `-1` when absent. -/
def jsIndexOf (l : List String) (a : String) : Int :=
  match l with
  | [] => -1
  | b :: t =>
    if b == a then 0
    else
      let r := jsIndexOf t a
      if r < 0 then -1 else r + 1

/-- Model of `arr.splice(i, 1)`: a negative index counts from the end
(clamped at 0), an index past the end removes nothing. -/
def jsSpliceRemoveOne (l : List String) (i : Int) : List String :=
  let start : Nat := if i < 0 then ((l.length : Int) + i).toNat else i.toNat
  l.eraseIdx start

/-- Model of `arr.splice(i, 0, a)`: insert at position `i`, appending when
`i` is past the end. -/
def jsSpliceInsertOne (l : List String) (i : Nat) (a : String) : List String :=
  l.take i ++ a :: l.drop i

/-- The axis reorder of ParallelCoordinatesPlot.tsx (both the chip `onDrop`
and the overlay `onmouseup` path): remove the dragged metric at its source
index, insert it at the target index. -/
def pcpOnDrop (selectedMetrics : List String) (draggedMetric : String)
    (targetIndex : Nat) : List String :=
  let sourceIndex := jsIndexOf selectedMetrics draggedMetric
  let newOrder := jsSpliceRemoveOne selectedMetrics sourceIndex
  jsSpliceInsertOne newOrder targetIndex draggedMetric

/-! ### Radar chart (RadarChart): per-metric normalization -/

/-- `Math.max(...values)` over the nonempty value list (the renderer
returns early when `statesData` is empty, so the empty case is never
evaluated by the source; we give it the value 0). -/
def maxListQ (values : List ℚ) : ℚ :=
  match values with
  | [] => 0
  | v :: rest => rest.foldl max v

/-- An entity's value for a radar axis: parsed metric (`NaN` coerced to 0),
divided by 1000 for the income metric. -/
def radarValue (state : StateData) (metric : String) : ℚ :=
  let value := (jsParseFloat (state.cell metric)).getD 0
  if metric == "Median Household Income" then value / 1000 else value

/-- `maxValues[metric]`: the maximum of the per-entity values across all
charted rows, income again scaled by 1000. -/
def radarMaxValue (statesData : List StateData) (metric : String) : ℚ :=
  let m := maxListQ (statesData.map fun state => (jsParseFloat (state.cell metric)).getD 0)
  if metric == "Median Household Income" then m / 1000 else m

/-- The radar chart's outer radius:
`Math.min(chartWidth, chartHeight) / 2` with 80/80 horizontal and 50/50
vertical margins. -/
def radarRadius (width height : ℚ) : ℚ :=
  min (width - 160) (height - 100) / 2

/-- `radiusScale`: the fixed linear scale `[0, 100] → [0, radius]`. -/
def radiusScale (width height : ℚ) (p : ℚ) : ℚ :=
  p / 100 * radarRadius width height

/-- The radial coordinate the `lineGenerator` assigns to one entity's vertex
on one axis: `radiusScale((value / (maxValues[metric] || 1)) * 100)`. -/
def radarVertexRadius (statesData : List StateData) (metric : String) (state : StateData)
    (width height : ℚ) : ℚ :=
  let maxVal := jsOrQ (some (radarMaxValue statesData metric)) 1
  let percentage := radarValue state metric / maxVal * 100
  radiusScale width height percentage

/-! ### Static FIPS tables (lib/utils.ts) -/

/-- `fipsToStateMap`: the static FIPS-code → state-abbreviation table, in
source (insertion) order. -/
def fipsToStateMap : List (String × String) :=
  [("01", "AL"), ("02", "AK"), ("04", "AZ"), ("05", "AR"), ("06", "CA"),
   ("08", "CO"), ("09", "CT"), ("10", "DE"), ("12", "FL"), ("13", "GA"),
   ("15", "HI"), ("16", "ID"), ("17", "IL"), ("18", "IN"), ("19", "IA"),
   ("20", "KS"), ("21", "KY"), ("22", "LA"), ("23", "ME"), ("24", "MD"),
   ("25", "MA"), ("26", "MI"), ("27", "MN"), ("28", "MS"), ("29", "MO"),
   ("30", "MT"), ("31", "NE"), ("32", "NV"), ("33", "NH"), ("34", "NJ"),
   ("35", "NM"), ("36", "NY"), ("37", "NC"), ("38", "ND"), ("39", "OH"),
   ("40", "OK"), ("41", "OR"), ("42", "PA"), ("44", "RI"), ("45", "SC"),
   ("46", "SD"), ("47", "TN"), ("48", "TX"), ("49", "UT"), ("50", "VT"),
   ("51", "VA"), ("53", "WA"), ("54", "WV"), ("55", "WI"), ("56", "WY")]

/-- JavaScript object property assignment `acc[key] = value` on an object
modelled as an insertion-ordered key/value list: overwrite an existing key
in place, otherwise append. -/
def objInsert (acc : List (String × String)) (key value : String) :
    List (String × String) :=
  if acc.any (fun p => p.1 == key) then
    acc.map fun p => if p.1 == key then (key, value) else p
  else acc ++ [(key, value)]

/-- `stateToFipsMap`: the derived inverse table, built by the source's
`Object.entries(fipsToStateMap).reduce((acc, [fips, state]) => { acc[state] = fips; ... })`. -/
def stateToFipsMap : List (String × String) :=
  fipsToStateMap.foldl (fun acc p => objInsert acc p.2 p.1) []

/-- Property read `m[key]` on an object modelled as a key/value list. -/
def objLookup (m : List (String × String)) (key : String) : Option String :=
  (m.find? fun p => p.1 == key).map fun p => p.2

/-! ### Concrete rows used by witnesses and counterexamples -/

/-- A demo row in the shape of the dataset: California, broadband 85.2. -/
def rowCA : StateData :=
  { columns := ["Geo_ID", "State", "state_id", "% Broadband"]
    cell := fun key =>
      if key == "State" then "California"
      else if key == "state_id" then "CA"
      else if key == "Geo_ID" then "0400000US06"
      else if key == "% Broadband" then "85.2"
      else "" }

/-- A demo row whose broadband value fails numeric parse: New York, "abc". -/
def rowNY : StateData :=
  { columns := ["Geo_ID", "State", "state_id", "% Broadband"]
    cell := fun key =>
      if key == "State" then "New York"
      else if key == "state_id" then "NY"
      else if key == "Geo_ID" then "0400000US36"
      else if key == "% Broadband" then "abc"
      else "" }

/-- A demo row carrying the designated income metric value "62843". -/
def rowIncome : StateData :=
  { columns := ["Geo_ID", "State", "state_id", "Median Household Income"]
    cell := fun key =>
      if key == "State" then "California"
      else if key == "state_id" then "CA"
      else if key == "Median Household Income" then "62843"
      else "" }

/-- A demo row whose broadband value is exactly zero. -/
def rowZero : StateData :=
  { columns := ["Geo_ID", "State", "state_id", "% Broadband"]
    cell := fun key =>
      if key == "State" then "Zeroland"
      else if key == "state_id" then "ZL"
      else if key == "% Broadband" then "0"
      else "" }

/-- The two-row demo dataset of the spec's domain scenario. -/
def demoData : List StateData := [rowCA, rowNY]

/-- A selection state in single-selection mode with California selected. -/
def demoSingleState : DashSelState :=
  { selectedStates := [{ id := "06", data := rowCA }]
    selectedRegion := none
    multipleSelectionMode := false }

/-- A selection state in multiple-selection mode with California selected. -/
def demoMultiState : DashSelState :=
  { selectedStates := [{ id := "06", data := rowCA }]
    selectedRegion := none
    multipleSelectionMode := true }

/-- A selection state with an active region view. -/
def demoRegionState : DashSelState :=
  { selectedStates := []
    selectedRegion := some "Northeast"
    multipleSelectionMode := false }

/-! ### Helper lemmas -/

theorem foldl_min_le_init (t : List ℚ) (y : ℚ) : t.foldl min y ≤ y := by
  induction t generalizing y with
  | nil => exact le_refl y
  | cons b t ih => exact le_trans (ih (min y b)) (min_le_left y b)

theorem foldl_min_le_mem (t : List ℚ) (y v : ℚ) (h : v ∈ t) : t.foldl min y ≤ v := by
  induction t generalizing y with
  | nil => cases h
  | cons b t ih =>
    rcases List.mem_cons.mp h with hb | ht
    · subst hb
      exact le_trans (foldl_min_le_init t (min y v)) (min_le_right y v)
    · exact ih (min y b) ht

theorem le_foldl_max_init (t : List ℚ) (y : ℚ) : y ≤ t.foldl max y := by
  induction t generalizing y with
  | nil => exact le_refl y
  | cons b t ih => exact le_trans (le_max_left y b) (ih (max y b))

theorem le_foldl_max_mem (t : List ℚ) (y v : ℚ) (h : v ∈ t) : v ≤ t.foldl max y := by
  induction t generalizing y with
  | nil => cases h
  | cons b t ih =>
    rcases List.mem_cons.mp h with hb | ht
    · subst hb
      exact le_trans (le_max_right y v) (le_foldl_max_init t (max y v))
    · exact ih (max y b) ht

theorem jsOrQ_some (v dflt : ℚ) : jsOrQ (some v) dflt = if v = 0 then dflt else v := rfl

theorem choro_lo_le (values : List ℚ) (v : ℚ) (hv : v ∈ values) :
    jsOrQ (d3min values) 0 ≤ v := by
  cases values with
  | nil => cases hv
  | cons x t =>
    have hm : t.foldl min x ≤ v := by
      rcases List.mem_cons.mp hv with hx | ht
      · exact hx ▸ foldl_min_le_init t x
      · exact foldl_min_le_mem t x v ht
    show jsOrQ (some (t.foldl min x)) 0 ≤ v
    rw [jsOrQ_some]
    split
    · next hz => exact hz ▸ hm
    · exact hm

theorem choro_hi_ge (values : List ℚ) (v : ℚ) (hv : v ∈ values) :
    v ≤ jsOrQ (d3max values) 100 := by
  cases values with
  | nil => cases hv
  | cons x t =>
    have hm : v ≤ t.foldl max x := by
      rcases List.mem_cons.mp hv with hx | ht
      · exact hx ▸ le_foldl_max_init t x
      · exact le_foldl_max_mem t x v ht
    show v ≤ jsOrQ (some (t.foldl max x)) 100
    rw [jsOrQ_some]
    split
    · next hz => exact le_trans hm (le_trans (le_of_eq hz) (by norm_num))
    · exact hm

theorem le_maxListQ_mem (values : List ℚ) (v : ℚ) (h : v ∈ values) :
    v ≤ maxListQ values := by
  cases values with
  | nil => cases h
  | cons x t =>
    show v ≤ t.foldl max x
    rcases List.mem_cons.mp h with hx | ht
    · exact hx ▸ le_foldl_max_init t x
    · exact le_foldl_max_mem t x v ht

theorem filter_ne_any_eq_false (l : List SelectedState) (stateId : String) :
    (l.filter fun e => e.id != stateId).any (fun e => e.id == stateId) = false := by
  rw [Bool.eq_false_iff]
  intro hcontra
  obtain ⟨e, he, hid⟩ := List.any_eq_true.mp hcontra
  have := (List.mem_filter.mp he).2
  rw [bne_iff_ne] at this
  exact this (beq_iff_eq.mp hid)

theorem filter_ne_of_any_eq_false (l : List SelectedState) (stateId : String)
    (h : l.any (fun e => e.id == stateId) = false) :
    l.filter (fun e => e.id != stateId) = l := by
  rw [List.filter_eq_self]
  intro e he
  rw [bne_iff_ne]
  intro heq
  have : l.any (fun e => e.id == stateId) = true :=
    List.any_eq_true.mpr ⟨e, he, beq_iff_eq.mpr heq⟩
  rw [h] at this
  cases this

/-! ### Claim theorems -/

/-- Claim C1: in single-selection mode, `handleStateSelect` replaces the
whole selection with exactly the one picked entry, regardless of the prior
selection. -/
theorem pick_single_replaces (s : DashSelState) (stateId : String) (sd : StateData)
    (h : s.multipleSelectionMode = false) :
    (handleStateSelect s stateId sd).selectedStates = [({ id := stateId, data := sd } : SelectedState)] := by
  simp [handleStateSelect, h]

/-- Witness for C1: with California already selected in single mode,
picking New York yields exactly the New York selection. -/
theorem pick_single_replaces_witness :
    (handleStateSelect demoSingleState "36" rowNY).selectedStates
      = [{ id := "36", data := rowNY }] :=
  pick_single_replaces demoSingleState "36" rowNY rfl

/-- Claim C3 counterexample: `handleStateSelect` does not touch
`selectedRegion`.  With the Northeast region active, picking New York
leaves the region set, not cleared to `null` as the claim states. -/
theorem pick_entity_region_not_cleared :
    (handleStateSelect demoRegionState "36" rowNY).selectedRegion = some "Northeast"
    ∧ (handleStateSelect demoRegionState "36" rowNY).selectedRegion ≠ none :=
  ⟨rfl, by decide⟩

/-- Claim C3 (amended): `handleStateSelect` leaves `selectedRegion`
unchanged in both selection modes; only `clearSelection` clears it (along
with the entity selection). -/
theorem pick_entity_preserves_region (s : DashSelState) (stateId : String) (sd : StateData) :
    (handleStateSelect s stateId sd).selectedRegion = s.selectedRegion
    ∧ (clearSelection s).selectedRegion = none
    ∧ (clearSelection s).selectedStates = [] := by
  refine ⟨?_, rfl, rfl⟩
  unfold handleStateSelect
  split
  · split <;> rfl
  · rfl

/-- Claim C4: the choropleth colour domain is computed over exactly the
rows whose metric value parses, and it brackets every parsed value. -/
theorem choropleth_domain_parsed_only (data : List StateData) (metric : String) :
    (∀ v : ℚ, v ∈ choroMetricValues data metric ↔
      ∃ d ∈ data, jsParseFloat (d.cell metric) = some v)
    ∧ ∀ v ∈ choroMetricValues data metric,
        (choroDomain data metric).1 ≤ v ∧ v ≤ (choroDomain data metric).2 := by
  constructor
  · intro v
    simp [choroMetricValues, List.mem_filterMap, List.mem_map]
  · intro v hv
    exact ⟨choro_lo_le _ v hv, choro_hi_ge _ v hv⟩

/-- Witness for C4, on the spec's two-row scenario (California parses to
85.2, New York's "abc" does not): 85.2 is an included value, the domain
collapses to (85.2, 85.2), and the bounds bracket it. -/
theorem choropleth_domain_parsed_only_witness :
    ((85.2 : ℚ) ∈ choroMetricValues demoData "% Broadband" ↔
      ∃ d ∈ demoData, jsParseFloat (d.cell "% Broadband") = some (85.2 : ℚ))
    ∧ choroDomain demoData "% Broadband" = (85.2, 85.2)
    ∧ (choroDomain demoData "% Broadband").1 ≤ (85.2 : ℚ)
    ∧ (85.2 : ℚ) ≤ (choroDomain demoData "% Broadband").2 :=
  ⟨(choropleth_domain_parsed_only demoData "% Broadband").1 85.2,
   by decide,
   ((choropleth_domain_parsed_only demoData "% Broadband").2 85.2 (by decide)).1,
   ((choropleth_domain_parsed_only demoData "% Broadband").2 85.2 (by decide)).2⟩

/-- Claim C9 counterexample: the fetch helpers swallow their failures, so a
failed dataset fetch leaves `error = null` and the dashboard renders the
main layout, not the error view; a failed topology fetch still renders the
main layout over the partially loaded dataset. -/
theorem load_failure_no_error_view :
    (loadData Unit FetchOutcome.failure (FetchOutcome.ok ())).error = none
    ∧ dashboardView Unit (loadData Unit FetchOutcome.failure (FetchOutcome.ok ())) = DashView.main
    ∧ dashboardView Unit (loadData Unit (FetchOutcome.ok demoData) FetchOutcome.failure) = DashView.main
    ∧ (loadData Unit (FetchOutcome.ok demoData) FetchOutcome.failure).stateData = demoData
    ∧ (loadData Unit (FetchOutcome.ok demoData) FetchOutcome.failure).topoData = none :=
  ⟨rfl, rfl, rfl, rfl, rfl⟩

/-- Claim C9 (amended): load failures are swallowed by the fetch helpers
(CSV failure yields an empty dataset, topology failure yields `null`); the
dashboard's `error` state is never set by a load failure and the main
layout is always rendered once loading finishes. -/
theorem load_failure_swallowed (T : Type) (csvOutcome : FetchOutcome (List StateData))
    (topoOutcome : FetchOutcome T) :
    (loadData T csvOutcome topoOutcome).error = none
    ∧ (loadData T csvOutcome topoOutcome).isLoading = false
    ∧ dashboardView T (loadData T csvOutcome topoOutcome) = DashView.main
    ∧ (loadData T FetchOutcome.failure topoOutcome).stateData = []
    ∧ (loadData T csvOutcome FetchOutcome.failure).topoData = none :=
  ⟨rfl, rfl, rfl, rfl, rfl⟩

/-- Claim C10: the derived state-to-FIPS table is the exact inverse of the
static FIPS-to-state table: both have 50 entries, the state abbreviations
are pairwise distinct, and translating along one table and back along the
other is the identity on every mapped entry, in both directions. -/
theorem fips_state_roundtrip :
    stateToFipsMap.length = fipsToStateMap.length
    ∧ fipsToStateMap.length = 50
    ∧ (fipsToStateMap.map Prod.snd).Nodup
    ∧ fipsToStateMap.all (fun p => objLookup stateToFipsMap p.2 == some p.1) = true
    ∧ stateToFipsMap.all (fun q => objLookup fipsToStateMap q.2 == some q.1) = true :=
  ⟨by decide, by decide, by decide, by decide, by decide⟩

theorem filter_idem (p : SelectedState → Bool) (l : List SelectedState) :
    (l.filter p).filter p = l.filter p := by
  induction l with
  | nil => rfl
  | cons a t ih =>
    by_cases hp : p a
    · simp [List.filter_cons, hp, ih]
    · simp [List.filter_cons, hp, ih]

/-- Claim C2: in multiple-selection mode, picking the same id twice
restores the prior membership set of `selectedEntities`, and each single
pick preserves the relative order of the surviving entries (a pick removes
the id if present, else appends it at the end). -/
theorem pick_multiple_involution (s : DashSelState) (stateId : String) (sd : StateData)
    (hm : s.multipleSelectionMode = true) :
    (∀ x : String,
        (∃ e ∈ (handleStateSelect (handleStateSelect s stateId sd) stateId sd).selectedStates,
          e.id = x)
        ↔ ∃ e ∈ s.selectedStates, e.id = x)
    ∧ (handleStateSelect (handleStateSelect s stateId sd) stateId sd).selectedStates.filter
        (fun e => e.id != stateId)
      = s.selectedStates.filter (fun e => e.id != stateId)
    ∧ (handleStateSelect s stateId sd).selectedStates.filter (fun e => e.id != stateId)
      = s.selectedStates.filter (fun e => e.id != stateId) := by
  by_cases hany : s.selectedStates.any (fun e => e.id == stateId) = true
  · -- the picked id is present: first pick removes it, second appends it back
    have h1 : handleStateSelect s stateId sd
        = { s with selectedStates := s.selectedStates.filter fun e => e.id != stateId } := by
      simp [handleStateSelect, hm, hany]
    have h2 : handleStateSelect (handleStateSelect s stateId sd) stateId sd
        = { s with selectedStates :=
            (s.selectedStates.filter fun e => e.id != stateId)
              ++ [({ id := stateId, data := sd } : SelectedState)] } := by
      rw [h1]
      simp [handleStateSelect, hm, filter_ne_any_eq_false]
    refine ⟨?_, ?_, ?_⟩
    · intro x
      rw [h2]
      show (∃ e ∈ (s.selectedStates.filter fun e => e.id != stateId)
          ++ [({ id := stateId, data := sd } : SelectedState)], e.id = x) ↔ _
      constructor
      · rintro ⟨e, he, rfl⟩
        rcases List.mem_append.mp he with hf | hnew
        · exact ⟨e, (List.mem_filter.mp hf).1, rfl⟩
        · have hee : e = { id := stateId, data := sd } := by simpa using hnew
          subst hee
          obtain ⟨e0, he0, hid0⟩ := List.any_eq_true.mp hany
          exact ⟨e0, he0, beq_iff_eq.mp hid0⟩
      · rintro ⟨e, he, rfl⟩
        by_cases hid : e.id == stateId
        · refine ⟨{ id := stateId, data := sd },
            List.mem_append.mpr (Or.inr (by simp)), (beq_iff_eq.mp hid).symm⟩
        · refine ⟨e, List.mem_append.mpr (Or.inl (List.mem_filter.mpr ⟨he, ?_⟩)), rfl⟩
          rw [bne_iff_ne]
          exact fun hc => hid (beq_iff_eq.mpr hc)
    · rw [h2]
      show ((s.selectedStates.filter fun e => e.id != stateId)
          ++ [({ id := stateId, data := sd } : SelectedState)]).filter (fun e => e.id != stateId) = _
      rw [List.filter_append]
      have hnew : List.filter (fun e => e.id != stateId)
          [({ id := stateId, data := sd } : SelectedState)] = [] := by
        simp
      rw [hnew, List.append_nil, filter_idem]
    · rw [h1]
      exact filter_idem _ _
  · -- the picked id is absent: first pick appends it, second removes it again
    have hany' : s.selectedStates.any (fun e => e.id == stateId) = false := by
      simpa using hany
    have h1 : handleStateSelect s stateId sd
        = { s with selectedStates :=
            s.selectedStates ++ [({ id := stateId, data := sd } : SelectedState)] } := by
      simp [handleStateSelect, hm, hany']
    have hany2 : ((s.selectedStates ++ [({ id := stateId, data := sd } : SelectedState)]).any
        (fun e => e.id == stateId)) = true := by
      simp [List.any_append]
    have h3 : (s.selectedStates ++ [({ id := stateId, data := sd } : SelectedState)]).filter
        (fun e => e.id != stateId) = s.selectedStates.filter (fun e => e.id != stateId) := by
      rw [List.filter_append]
      have hnew : List.filter (fun e => e.id != stateId)
          [({ id := stateId, data := sd } : SelectedState)] = [] := by
        simp
      rw [hnew, List.append_nil]
    have h2 : handleStateSelect (handleStateSelect s stateId sd) stateId sd
        = { s with selectedStates := s.selectedStates } := by
      rw [h1]
      simp [handleStateSelect, hm, hany2, h3, filter_ne_of_any_eq_false _ _ hany']
    refine ⟨?_, ?_, ?_⟩
    · intro x
      rw [h2]
    · rw [h2]
    · rw [h1]
      show (s.selectedStates ++ [({ id := stateId, data := sd } : SelectedState)]).filter
          (fun e => e.id != stateId) = _
      rw [h3]

/-- Witness for C2: in multiple mode with California selected, picking
California twice restores the membership of the original selection and the
surviving order after each pick. -/
theorem pick_multiple_involution_witness :
    ((∃ e ∈ (handleStateSelect (handleStateSelect demoMultiState "06" rowCA) "06" rowCA).selectedStates,
        e.id = "06")
      ↔ ∃ e ∈ demoMultiState.selectedStates, e.id = "06")
    ∧ (handleStateSelect (handleStateSelect demoMultiState "06" rowCA) "06" rowCA).selectedStates.filter
        (fun e => e.id != "06")
      = demoMultiState.selectedStates.filter (fun e => e.id != "06")
    ∧ (handleStateSelect demoMultiState "06" rowCA).selectedStates.filter (fun e => e.id != "06")
      = demoMultiState.selectedStates.filter (fun e => e.id != "06") :=
  ⟨(pick_multiple_involution demoMultiState "06" rowCA rfl).1 "06",
   (pick_multiple_involution demoMultiState "06" rowCA rfl).2.1,
   (pick_multiple_involution demoMultiState "06" rowCA rfl).2.2⟩

/-- Claim C5: a row whose metric value fails numeric parse is still
rendered: the bar chart keeps one rectangle per row (none dropped) and
draws the unparsable row as a zero-height bar at the baseline, and the
choropleth fills its feature with the fixed neutral gray. -/
theorem unparsable_row_rendered (statesData : List StateData) (metric : String)
    (sortOrder : Bool) (height : ℚ) (yScale : ℚ → ℚ) (row : StateData)
    (hrow : row ∈ statesData) (hnp : jsParseFloat (row.cell metric) = none) :
    (groupBarRects statesData metric sortOrder height yScale).length = statesData.length
    ∧ (∃ r ∈ groupBarRects statesData metric sortOrder height yScale,
        r.datum = row ∧ r.height = 0 ∧ r.y = height - 60)
    ∧ ∀ (dataByFips : String → Option StateData) (colorScale : ℚ → String)
        (featureId : String), dataByFips featureId = some row →
        choroplethFill dataByFips metric colorScale featureId = "#e5e7eb" := by
  have hperm := List.mergeSort_perm statesData
    (fun a b => decide (groupBarComparator metric sortOrder a b ≤ 0))
  refine ⟨?_, ?_, ?_⟩
  · rw [groupBarRects, List.length_map]
    exact hperm.length_eq
  · have hr : row ∈ groupBarSorted statesData metric sortOrder := hperm.mem_iff.mpr hrow
    refine ⟨{ datum := row, y := height - 60, height := 0 }, ?_, rfl, rfl, rfl⟩
    rw [groupBarRects]
    exact List.mem_map.mpr ⟨row, hr, by rw [hnp]⟩
  · intro dataByFips colorScale featureId hlk
    simp [choroplethFill, hlk, hnp]

/-- Witness for C5, on the spec's two-row scenario: New York's "abc" row
keeps its place in the bar chart row sequence as a zero-height baseline
bar, and its map feature is filled neutral gray. -/
theorem unparsable_row_rendered_witness :
    (groupBarRects demoData "% Broadband" true 380 id).length = demoData.length
    ∧ (∃ r ∈ groupBarRects demoData "% Broadband" true 380 id,
        r.datum = rowNY ∧ r.height = 0 ∧ r.y = 380 - 60)
    ∧ choroplethFill (fun fid => if fid == "36" then some rowNY else none)
        "% Broadband" (fun _ => "blue") "36" = "#e5e7eb" :=
  ⟨(unparsable_row_rendered demoData "% Broadband" true 380 id rowNY
      (by simp [demoData]) (by decide)).1,
   (unparsable_row_rendered demoData "% Broadband" true 380 id rowNY
      (by simp [demoData]) (by decide)).2.1,
   (unparsable_row_rendered demoData "% Broadband" true 380 id rowNY
      (by simp [demoData]) (by decide)).2.2
     (fun fid => if fid == "36" then some rowNY else none) (fun _ => "blue") "36" rfl⟩

/-- Claim C6: for the designated income metric, the number placed on the
shared axis is the parsed value divided by 1000 (in both the comparison
chart's bar data and the per-state chart's `chartValue`), while the
displayed value is always derived from the unscaled raw cell string,
formatted as a dollar amount. -/
theorem income_scaled_display_unscaled (sd : StateData) (v : ℚ)
    (hp : jsParseFloat (sd.cell "Median Household Income") = some v) :
    (compBarDatum sd "Median Household Income").value = some (v / 1000)
    ∧ (compBarDatum sd "Median Household Income").displayValue
        = sd.cell "Median Household Income"
    ∧ compBarTooltipText (compBarDatum sd "Median Household Income")
        = formatValue (sd.cell "Median Household Income") "Median Household Income"
    ∧ chartValueOf (chartMetricOf sd "Median Household Income") = v / 1000
    ∧ (chartMetricOf sd "Median Household Income").displayValue
        = sd.cell "Median Household Income"
    ∧ ∀ n : Int, jsParseInt (sd.cell "Median Household Income") = some n →
        compBarTooltipText (compBarDatum sd "Median Household Income")
          = "$" ++ jsToLocaleString n := by
  refine ⟨?_, rfl, rfl, ?_, rfl, ?_⟩
  · simp [compBarDatum, hp]
  · simp [chartValueOf, chartMetricOf, hp]
  · intro n hn
    simp [compBarTooltipText, compBarDatum, formatValue, hn]

/-- Witness for C6, on the spec's scenario value "62843": the plotted
number is 62843/1000 and the tooltip shows "$62,843", never the scaled
number. -/
theorem income_scaled_display_unscaled_witness :
    (compBarDatum rowIncome "Median Household Income").value = some ((62843 : ℚ) / 1000)
    ∧ chartValueOf (chartMetricOf rowIncome "Median Household Income") = (62843 : ℚ) / 1000
    ∧ compBarTooltipText (compBarDatum rowIncome "Median Household Income") = "$62,843" :=
  ⟨(income_scaled_display_unscaled rowIncome 62843 (by decide)).1,
   (income_scaled_display_unscaled rowIncome 62843 (by decide)).2.2.2.1,
   ((income_scaled_display_unscaled rowIncome 62843 (by decide)).2.2.2.2.2 62843
      (by decide)).trans (by decide)⟩

theorem jsIndexOf_nonneg (l : List String) (a : String) (h : a ∈ l) :
    0 ≤ jsIndexOf l a := by
  induction l with
  | nil => cases h
  | cons b t ih =>
    unfold jsIndexOf
    by_cases hb : b == a
    · simp [hb]
    · have ha : a ∈ t := by
        rcases List.mem_cons.mp h with hab | hat
        · exact absurd (beq_iff_eq.mpr hab.symm) hb
        · exact hat
      have h0 := ih ha
      simp only [hb, if_false, Bool.false_eq_true]
      rw [if_neg (not_lt.mpr h0)]
      omega

theorem cons_remove_at_indexOf_perm (l : List String) (a : String) (h : a ∈ l) :
    (a :: jsSpliceRemoveOne l (jsIndexOf l a)).Perm l := by
  induction l with
  | nil => cases h
  | cons b t ih =>
    by_cases hb : b == a
    · have hba : b = a := beq_iff_eq.mp hb
      subst hba
      show (b :: jsSpliceRemoveOne (b :: t) (jsIndexOf (b :: t) b)).Perm (b :: t)
      have hidx : jsIndexOf (b :: t) b = 0 := by simp [jsIndexOf]
      rw [hidx]
      show (b :: (b :: t).eraseIdx 0).Perm (b :: t)
      exact List.Perm.refl _
    · have ha : a ∈ t := by
        rcases List.mem_cons.mp h with hab | hat
        · exact absurd (beq_iff_eq.mpr hab.symm) hb
        · exact hat
      have h0 : 0 ≤ jsIndexOf t a := jsIndexOf_nonneg t a ha
      have hstep : jsIndexOf (b :: t) a
          = if b == a then (0 : Int)
            else if jsIndexOf t a < 0 then -1 else jsIndexOf t a + 1 := rfl
      have hidx : jsIndexOf (b :: t) a = jsIndexOf t a + 1 := by
        rw [hstep, if_neg hb, if_neg (not_lt.mpr h0)]
      have herase : jsSpliceRemoveOne (b :: t) (jsIndexOf t a + 1)
          = b :: jsSpliceRemoveOne t (jsIndexOf t a) := by
        unfold jsSpliceRemoveOne
        rw [if_neg (by omega : ¬ jsIndexOf t a + 1 < 0), if_neg (not_lt.mpr h0)]
        rw [(by omega : (jsIndexOf t a + 1).toNat = (jsIndexOf t a).toNat + 1)]
        rfl
      rw [hidx, herase]
      exact (List.Perm.swap b a _).trans ((ih ha).cons b)

/-- Claim C7: dragging an axis of the current metric sequence to any target
index permutes the sequence: the reordered sequence is a permutation of the
previous one and holds exactly the same metrics. -/
theorem axis_reorder_is_permutation (l : List String) (dragged : String) (target : Nat)
    (hd : dragged ∈ l) :
    (pcpOnDrop l dragged target).Perm l
    ∧ ∀ x : String, x ∈ pcpOnDrop l dragged target ↔ x ∈ l := by
  have hkey := cons_remove_at_indexOf_perm l dragged hd
  have hperm : (pcpOnDrop l dragged target).Perm l := by
    unfold pcpOnDrop jsSpliceInsertOne
    refine List.Perm.trans List.perm_middle ?_
    rw [List.take_append_drop]
    exact hkey
  exact ⟨hperm, fun x => hperm.mem_iff⟩

/-- Witness for C7: dragging "B" out of ["A", "B", "C"] and dropping it at
index 2 yields a permutation with the same membership. -/
theorem axis_reorder_is_permutation_witness :
    (pcpOnDrop ["A", "B", "C"] "B" 2).Perm ["A", "B", "C"]
    ∧ ("C" ∈ pcpOnDrop ["A", "B", "C"] "B" 2 ↔ "C" ∈ ["A", "B", "C"]) :=
  ⟨(axis_reorder_is_permutation ["A", "B", "C"] "B" 2 (by decide)).1,
   (axis_reorder_is_permutation ["A", "B", "C"] "B" 2 (by decide)).2 "C"⟩

theorem radarValue_le_max (statesData : List StateData) (metric : String)
    (state : StateData) (hmem : state ∈ statesData) :
    radarValue state metric ≤ radarMaxValue statesData metric := by
  have hv : (jsParseFloat (state.cell metric)).getD 0
      ≤ maxListQ (statesData.map fun s0 => (jsParseFloat (s0.cell metric)).getD 0) := by
    exact le_maxListQ_mem _ _ (List.mem_map.mpr ⟨state, hmem, rfl⟩)
  unfold radarValue radarMaxValue
  split
  · exact (div_le_div_iff_of_pos_right (by norm_num : (0 : ℚ) < 1000)).mpr hv
  · exact hv

/-- Claim C8 counterexample: with one selected entity whose metric value is
0, the per-metric maximum is 0 and the code's `|| 1` fallback divides by 1
instead, so the entity attaining the maximum is plotted at radius 0 — not
at 100% of the radial scale (radius 170 for a 500×500 chart) as the claim
states. -/
theorem radar_vertex_zero_max_counterexample :
    radarValue rowZero "% Broadband" = radarMaxValue [rowZero] "% Broadband"
    ∧ radarVertexRadius [rowZero] "% Broadband" rowZero 500 500 = 0
    ∧ radiusScale 500 500 100 = 170
    ∧ (0 : ℚ) ≠ 170 :=
  ⟨by decide, by decide, by decide, by decide⟩

/-- Claim C8 (amended): provided the per-metric maximum over the selected
entities is positive, each vertex's radial coordinate equals the entity's
value as a fraction of that maximum times the full radius (the 0–100 scale
applied to percent-of-max); it never exceeds the full radius, and an entity
attaining the maximum is plotted exactly at the full radius (100%).  When
the maximum is 0, the code divides by the fallback 1 instead. -/
theorem radar_vertex_normalized (statesData : List StateData) (metric : String)
    (state : StateData) (width height : ℚ) (hmem : state ∈ statesData)
    (hmax : 0 < radarMaxValue statesData metric) (hR : 0 ≤ radarRadius width height) :
    radarVertexRadius statesData metric state width height
      = radarValue state metric / radarMaxValue statesData metric * radarRadius width height
    ∧ radarVertexRadius statesData metric state width height ≤ radarRadius width height
    ∧ (radarValue state metric = radarMaxValue statesData metric →
        radarVertexRadius statesData metric state width height = radarRadius width height) := by
  have hne : radarMaxValue statesData metric ≠ 0 := ne_of_gt hmax
  have heq : radarVertexRadius statesData metric state width height
      = radarValue state metric / radarMaxValue statesData metric
        * radarRadius width height := by
    unfold radarVertexRadius radiusScale
    rw [jsOrQ_some, if_neg hne]
    ring
  refine ⟨heq, ?_, ?_⟩
  · rw [heq]
    have hle : radarValue state metric / radarMaxValue statesData metric ≤ 1 :=
      (div_le_one hmax).mpr (radarValue_le_max statesData metric state hmem)
    calc radarValue state metric / radarMaxValue statesData metric
          * radarRadius width height
        ≤ 1 * radarRadius width height := mul_le_mul_of_nonneg_right hle hR
      _ = radarRadius width height := one_mul _
  · intro hattain
    rw [heq, hattain, div_self hne, one_mul]

/-- Witness for C8 (amended): one entity with value 85.2, maximum 85.2 > 0,
in a 500×500 chart: the max-attaining vertex sits exactly at the full
radius and within it. -/
theorem radar_vertex_normalized_witness :
    radarVertexRadius [rowCA] "% Broadband" rowCA 500 500
      = radarValue rowCA "% Broadband" / radarMaxValue [rowCA] "% Broadband"
        * radarRadius 500 500
    ∧ radarVertexRadius [rowCA] "% Broadband" rowCA 500 500 ≤ radarRadius 500 500
    ∧ radarVertexRadius [rowCA] "% Broadband" rowCA 500 500 = radarRadius 500 500 :=
  ⟨(radar_vertex_normalized [rowCA] "% Broadband" rowCA 500 500 (by simp)
      (by decide) (by decide)).1,
   (radar_vertex_normalized [rowCA] "% Broadband" rowCA 500 500 (by simp)
      (by decide) (by decide)).2.1,
   (radar_vertex_normalized [rowCA] "% Broadband" rowCA 500 500 (by simp)
      (by decide) (by decide)).2.2 (by decide)⟩
